import Mathlib

/-!
Shallow embedding of the Discovery Scanning Engine of `src/app.py`
(DK-Scanner).  Network I/O is modelled by oracle functions passed as
arguments: an oracle maps the request arguments (and, where the code can
re-issue a request, the attempt index) to the upstream response.  A
response is a status code plus the parsed JSON body that the code reads.
Python exceptions raised by `raise_for_status` correspond to statuses
`>= 400`; catching them corresponds to the `Option`/skip paths below.
-/

set_option autoImplicit false

namespace DKScanner

/-- One entry of an album's `copyrights` array: `{"type": ..., "text": ...}`.
`ctype` embeds the JSON key `type`. -/
structure Copyright where
  ctype : String
  text : String
deriving DecidableEq, Repr

/-- The artist object embedded in an album record: `id`, `name`, and
`external_urls.spotify` (flattened to `url`). -/
structure ArtistRef where
  id : String
  name : String
  url : String
deriving DecidableEq, Repr

/-- A full album record as read by `app.py`: `id`, `copyrights`, `artists`. -/
structure Album where
  id : String
  copyrights : List Copyright
  artists : List ArtistRef
deriving DecidableEq, Repr

/-- A full artist record as read by `app.py`: `id`, `followers.total`,
`popularity`.  The record also carries an `images` array upstream; `app.py`
never reads it, but we embed its length so that properties about profile
images can be stated. -/
structure ArtistDetail where
  id : String
  followersTotal : Nat
  popularity : Nat
  images : Nat
deriving DecidableEq, Repr

/-- An upstream HTTP response to a bulk-detail request: status code and the
list body (`albums` resp. `artists` field).  Elements are `Option`s because
Spotify returns `null` for unknown ids and the code skips falsy entries. -/
structure Resp (α : Type) where
  status : Nat
  body : List α
deriving DecidableEq, Repr

/-- Response of `GET /v1/artists/{id}/albums` as read by
`check_artist_most_recent_release`: status plus the ids of the `items`. -/
structure ArtistAlbumsResp where
  status : Nat
  items : List String
deriving DecidableEq, Repr

/-- `MAX_FOLLOWERS = 100000` (app.py line 34). -/
def MAX_FOLLOWERS : Nat := 100000

/-! ## The P-line regex

`P_LINE_REGEX = re.compile(r"\d+\s+records\s+dk", re.IGNORECASE)` and its
use via `.search`.  Each character class in the pattern is disjoint from
the first character of what follows it (`\d` vs `\s`, `\s` vs `r`/`d`), so
greedy maximal munch at each position is equivalent to the backtracking
regex semantics, and `search` is satisfiability of a match at some start
position. -/

/-- `\d` (inputs of interest are ASCII). -/
def isPyDigit (c : Char) : Bool := c.isDigit

/-- Python's `\s`: space, tab, newline, carriage return, vertical tab,
form feed. -/
def isPySpace (c : Char) : Bool :=
  c = ' ' || c = '\t' || c = '\n' || c = '\r' || c = '\x0b' || c = '\x0c'

/-- Case-insensitive character comparison (`re.IGNORECASE`). -/
def lcEq (a b : Char) : Bool := a.toLower = b.toLower

/-- Match a literal (case-insensitively) at the front, returning the rest. -/
def matchLit : List Char → List Char → Option (List Char)
  | [], rest => some rest
  | _ :: _, [] => none
  | p :: ps, c :: cs => if lcEq p c then matchLit ps cs else none

/-- Consume one-or-more characters satisfying `p` (greedy), returning the
rest; `none` if the first character does not satisfy `p`. -/
def many1 (p : Char → Bool) : List Char → Option (List Char)
  | [] => none
  | c :: cs => if p c then some (cs.dropWhile p) else none

/-- Does `\d+\s+records\s+dk` match starting exactly here? -/
def pLineMatchAt (cs : List Char) : Bool :=
  match many1 isPyDigit cs with
  | none => false
  | some r1 =>
    match many1 isPySpace r1 with
    | none => false
    | some r2 =>
      match matchLit ("records".toList) r2 with
      | none => false
      | some r3 =>
        match many1 isPySpace r3 with
        | none => false
        | some r4 => (matchLit ("dk".toList) r4).isSome

/-- Try every start position (`re.search`). -/
def pLineSearchAux : List Char → Bool
  | [] => false
  | c :: cs => pLineMatchAt (c :: cs) || pLineSearchAux cs

/-- `P_LINE_REGEX.search(s)` is not `None`. -/
def P_LINE_REGEX_search (s : String) : Bool := pLineSearchAux s.toList

/-- The per-album ownership test of `get_details` (app.py lines 355–359):
the first copyright entry with `type == 'P'` whose text the regex matches;
the `break` exits the copyright loop after this entry's artists are
processed. -/
def firstMatchingCopyright (cs : List Copyright) : Option Copyright :=
  cs.find? (fun c => c.ctype == "P" && P_LINE_REGEX_search c.text)

/-- An album passes the ownership filter iff some P-type line matches the
regex (this is the whole ownership matcher of `app.py`). -/
def albumOwnershipMatch (a : Album) : Bool :=
  (firstMatchingCopyright a.copyrights).isSome

example : P_LINE_REGEX_search "2024 records dk" = true := by decide
example : P_LINE_REGEX_search "℗ 2024 Records DK" = true := by decide
example : P_LINE_REGEX_search "2024 Sony Music" = false := by decide
example : P_LINE_REGEX_search "Jane Doe Records" = false := by decide
example : P_LINE_REGEX_search "2024 records dk Sony Music" = true := by decide

/-! ## Detail batching

`get_full_album_details` (app.py 94–135) and `get_artist_details`
(139–175) loop `for i in range(0, len(ids), K)` over chunks of size `K`
(20 resp. 50).  Per chunk: one GET; if the status is 429, sleep per the
`Retry-After` hint and re-issue the GET once; then `raise_for_status`.
Any raised error is caught, the chunk is skipped, and the loop continues.
The oracle's second argument is the attempt index within a chunk. -/

/-- One chunk fetch: first attempt; on 429 exactly one retry; any final
status `>= 400` raises, which the caller catches (the chunk is skipped,
modelled by `none`). -/
def chunkFetch {α : Type} (o : List String → Nat → Resp α) (chunk : List String) :
    Option (List α) :=
  let r1 := o chunk 0
  let r := if r1.status = 429 then o chunk 1 else r1
  if 400 ≤ r.status then none else some r.body

/-- The chunk loop, structurally recursive on a fuel bounded below by the
number of chunks (`ids.length` suffices when `0 < k`).  Returns the
concatenated records of the successful chunks together with the number of
chunk-level calls issued. -/
def batchFetchAux {α : Type} (k : Nat) (o : List String → Nat → Resp α) :
    Nat → List String → List α × Nat
  | _, [] => ([], 0)
  | 0, _ :: _ => ([], 0)
  | fuel + 1, x :: xs =>
    let r := (chunkFetch o ((x :: xs).take k)).getD []
    let next := batchFetchAux k o fuel ((x :: xs).drop k)
    (r ++ next.1, next.2 + 1)

/-- `get_full_album_details(album_ids, token)`: chunks of 20. -/
def get_full_album_details (o : List String → Nat → Resp (Option Album))
    (album_ids : List String) : List (Option Album) × Nat :=
  batchFetchAux 20 o album_ids.length album_ids

/-- `get_artist_details(artist_ids, token)`: chunks of 50. -/
def get_artist_details (o : List String → Nat → Resp (Option ArtistDetail))
    (artist_ids : List String) : List (Option ArtistDetail) × Nat :=
  batchFetchAux 50 o artist_ids.length artist_ids

/-- The chunk decomposition `ids[0:k], ids[k:2k], ...` performed by
`range(0, len(ids), k)` slicing, with the same fuel pattern. -/
def chunksOfAux {α : Type} (k : Nat) : Nat → List α → List (List α)
  | _, [] => []
  | 0, _ :: _ => []
  | fuel + 1, x :: xs => ((x :: xs).take k) :: chunksOfAux k fuel ((x :: xs).drop k)

/-- All chunks of size `k` of a list. -/
def chunksOf {α : Type} (k : Nat) (ids : List α) : List (List α) :=
  chunksOfAux k ids.length ids

/-! ## Verification of a candidate's most recent release -/

/-- `check_artist_most_recent_release(artist_id, token)` (app.py 178–220).
Everything runs inside `try`; any raised error returns `False`.  Returns
the boolean outcome plus the number of upstream calls made.  Step 1 is the
`/artists/{id}/albums?limit=1` request (no 429 retry there: a 429 raises
and is caught); step 2 re-uses `get_full_album_details` on the single most
recent album id; step 3 scans that album's copyrights with the regex. -/
def check_artist_most_recent_release
    (albumsO : String → ArtistAlbumsResp)
    (detailO : List String → Nat → Resp (Option Album))
    (artist_id : String) : Bool × Nat :=
  let ar := albumsO artist_id
  if 400 ≤ ar.status then (false, 1)
  else
    match ar.items with
    | [] => (false, 1)
    | most_recent :: _ =>
      let full := get_full_album_details detailO [most_recent]
      match full.1 with
      | [] => (false, 1 + full.2)
      | none :: _ => (false, 1 + full.2)
      | some a :: _ =>
        (a.copyrights.any (fun c => c.ctype == "P" && P_LINE_REGEX_search c.text),
         1 + full.2)

/-! ## The scan endpoint `/api/get_details` (app.py 326–405) -/

/-- The POST body: `album_ids` (absent/null modelled as `none`) and
`artists_already_found` (defaulting to `[]`). -/
structure ScanInput where
  album_ids : Option (List String)
  artists_already_found : List String
deriving DecidableEq, Repr

/-- An error response: HTTP status and the `error` message. -/
structure ErrResp where
  status : Nat
  message : String
deriving DecidableEq, Repr

/-- One entry of the returned `artists` list. -/
structure ArtistOut where
  name : String
  url : String
  followers : Nat
  popularity : Nat
  id : String
deriving DecidableEq, Repr

/-- The value stored in `artists_to_fetch_details_for[artist_id]`. -/
structure BaseInfo where
  name : String
  url : String
deriving DecidableEq, Repr

/-- Python dict assignment `d[k] = v`: overwrite in place if the key
exists, else append. -/
def upsert (d : List (String × BaseInfo)) (k : String) (v : BaseInfo) :
    List (String × BaseInfo) :=
  if d.any (fun p => p.1 == k) then
    d.map (fun p => if p.1 == k then (k, v) else p)
  else d ++ [(k, v)]

/-- The inner artist loop of the album filter (app.py 360–372): for each
artist of a matched album, if `artist_id` and `artist_name` are truthy and
the id is not in `artists_already_found`, call
`check_artist_most_recent_release` and on success store the artist.  `acc`
is the dict so far paired with the upstream-call count so far. -/
def processArtists (already : List String) (check : String → Bool × Nat) :
    List ArtistRef → List (String × BaseInfo) × Nat → List (String × BaseInfo) × Nat
  | [], acc => acc
  | art :: rest, acc =>
    processArtists already check rest
      (if (art.id != "") && (art.name != "") && !(already.contains art.id) then
        (if (check art.id).1 then upsert acc.1 art.id ⟨art.name, art.url⟩ else acc.1,
         acc.2 + (check art.id).2)
      else acc)

/-- The outer album loop (app.py 353–373): skip falsy albums; if some
copyright line has `type == 'P'` and matches the regex, process the
album's artists (then `break` to the next album). -/
def collectArtists (already : List String) (check : String → Bool × Nat) :
    List (Option Album) → List (String × BaseInfo) × Nat → List (String × BaseInfo) × Nat
  | [], acc => acc
  | none :: rest, acc => collectArtists already check rest acc
  | some a :: rest, acc =>
    collectArtists already check rest
      (if (firstMatchingCopyright a.copyrights).isSome then
        processArtists already check a.artists acc
      else acc)

/-- The final loop (app.py 385–402): for each artist record, skip falsy
entries, look the id up in the dict, and keep the artist iff
`followers.total < MAX_FOLLOWERS`. -/
def finalFilter (dict : List (String × BaseInfo)) :
    List (Option ArtistDetail) → List ArtistOut
  | [] => []
  | none :: rest => finalFilter dict rest
  | some ad :: rest =>
    match dict.find? (fun p => p.1 == ad.id) with
    | none => finalFilter dict rest
    | some p =>
      if ad.followersTotal < MAX_FOLLOWERS then
        ⟨p.2.name, p.2.url, ad.followersTotal, ad.popularity, ad.id⟩ :: finalFilter dict rest
      else finalFilter dict rest

/-- `get_details` (app.py 326–405).  `tokenO` is the outcome of
`get_spotify_token()` (`none` = missing/rejected credentials); the other
oracles model the album-detail, artist-albums and artist-detail endpoints.
Returns either an error response or the `artists` list, paired with the
number of upstream calls issued (the credential exchange counted as one). -/
def get_details (tokenO : Option String)
    (albumDetailO : List String → Nat → Resp (Option Album))
    (artistAlbumsO : String → ArtistAlbumsResp)
    (artistDetailO : List String → Nat → Resp (Option ArtistDetail))
    (inp : ScanInput) : Except ErrResp (List ArtistOut) × Nat :=
  match inp.album_ids with
  | none => (.error ⟨400, "No album IDs provided"⟩, 0)
  | some album_ids =>
    if album_ids.isEmpty then (.error ⟨400, "No album IDs provided"⟩, 0)
    else
      match tokenO with
      | none => (.error ⟨500, "Authentication failed. Server credentials may be missing."⟩, 1)
      | some _ =>
        let full := get_full_album_details albumDetailO album_ids
        let collected := collectArtists inp.artists_already_found
          (fun aid => check_artist_most_recent_release artistAlbumsO albumDetailO aid)
          full.1 ([], 0)
        let calls := 1 + full.2 + collected.2
        if collected.1.isEmpty then (.ok [], calls)
        else
          let details := get_artist_details artistDetailO (collected.1.map (fun p => p.1))
          (.ok (finalFilter collected.1 details.1), calls + details.2)

/-! ## Concrete scenarios (used by witnesses and counterexamples) -/

/-- An album with the DK P-line, by artist `art1`. -/
def exAlbum1 : Album :=
  ⟨"alb1", [⟨"P", "2024 Records DK"⟩], [⟨"art1", "Test Artist", "u1"⟩]⟩

/-- An album with the DK P-line, by artist `art2`. -/
def exAlbum2 : Album :=
  ⟨"alb2", [⟨"P", "2024 Records DK"⟩], [⟨"art2", "Other Artist", "u2"⟩]⟩

/-- `art1`'s most recent release: still carries the DK P-line. -/
def exRecent1 : Album :=
  ⟨"rec1", [⟨"P", "2025 Records DK"⟩], [⟨"art1", "Test Artist", "u1"⟩]⟩

/-- `art2`'s most recent release: moved to a major label, no DK P-line. -/
def exRecent2 : Album :=
  ⟨"rec2", [⟨"P", "2025 Universal"⟩], [⟨"art2", "Other Artist", "u2"⟩]⟩

/-- Album-detail oracle for the scenario: always 200, one record per
requested id. -/
def exAlbumDetailO : List String → Nat → Resp (Option Album) :=
  fun chunk _ =>
    ⟨200, chunk.map (fun i =>
      if i = "alb1" then some exAlbum1
      else if i = "alb2" then some exAlbum2
      else if i = "rec1" then some exRecent1
      else if i = "rec2" then some exRecent2
      else none)⟩

/-- Artist-albums oracle: each artist's single most recent item. -/
def exArtistAlbumsO : String → ArtistAlbumsResp :=
  fun aid =>
    if aid = "art1" then ⟨200, ["rec1"]⟩
    else if aid = "art2" then ⟨200, ["rec2"]⟩
    else ⟨200, []⟩

/-- The enriched record of `art1`: 5 followers, popularity 0, no images. -/
def exDetail1 : ArtistDetail := ⟨"art1", 5, 0, 0⟩

/-- Artist-detail oracle: always 200, one record per requested id. -/
def exArtistDetailO : List String → Nat → Resp (Option ArtistDetail) :=
  fun chunk _ =>
    ⟨200, chunk.map (fun i => if i = "art1" then some exDetail1 else none)⟩

/-- Scan input for the scenario: both albums, with `artZ` already found. -/
def exInput : ScanInput := ⟨some ["alb1", "alb2"], ["artZ"]⟩

/-- The single result the scenario produces. -/
def exOut1 : ArtistOut := ⟨"Test Artist", "u1", 5, 0, "art1"⟩

/-! ## Lemmas about the batch machinery -/

theorem batchFetchAux_snd {α : Type} (k : Nat) (o : List String → Nat → Resp α) :
    ∀ fuel ids, (batchFetchAux k o fuel ids).2 = (chunksOfAux k fuel ids).length
  | fuel, [] => by cases fuel <;> simp [batchFetchAux, chunksOfAux]
  | 0, _ :: _ => by simp [batchFetchAux, chunksOfAux]
  | fuel + 1, x :: xs => by
    simp [batchFetchAux, chunksOfAux, batchFetchAux_snd k o fuel]

theorem batchFetchAux_fst {α : Type} (k : Nat) (o : List String → Nat → Resp α) :
    ∀ fuel ids, (batchFetchAux k o fuel ids).1
      = ((chunksOfAux k fuel ids).map (fun c => (chunkFetch o c).getD [])).flatten
  | fuel, [] => by cases fuel <;> simp [batchFetchAux, chunksOfAux]
  | 0, _ :: _ => by simp [batchFetchAux, chunksOfAux]
  | fuel + 1, x :: xs => by
    simp [batchFetchAux, chunksOfAux, batchFetchAux_fst k o fuel]

theorem ceilDiv_step (k N : Nat) (hk : 0 < k) (hN : 1 ≤ N) :
    ((N - k) + k - 1) / k + 1 = (N + k - 1) / k := by
  have h2 : N + k - 1 = (N - 1) + k := by omega
  rw [h2, Nat.add_div_right _ hk]
  rcases le_or_lt N k with h | h
  · have h1 : N - k = 0 := by omega
    have h3 : (N - 1) / k = 0 := Nat.div_eq_of_lt (by omega)
    have h4 : (k - 1) / k = 0 := Nat.div_eq_of_lt (by omega)
    rw [h1, h3]
    simpa using h4
  · have h1 : (N - k) + k - 1 = N - 1 := by omega
    rw [h1]

theorem chunksOfAux_length {α : Type} (k : Nat) (hk : 0 < k) :
    ∀ fuel (ids : List α), ids.length ≤ fuel →
      (chunksOfAux k fuel ids).length = (ids.length + k - 1) / k
  | fuel, [], _ => by
    have h0 : (k - 1) / k = 0 := Nat.div_eq_of_lt (by omega)
    cases fuel <;> simpa [chunksOfAux] using h0.symm
  | fuel + 1, x :: xs, hfuel => by
    have hdrop : ((x :: xs).drop k).length ≤ fuel := by
      rw [List.length_drop]
      simp only [List.length_cons] at hfuel ⊢
      omega
    have ih := chunksOfAux_length k hk fuel ((x :: xs).drop k) hdrop
    rw [List.length_drop] at ih
    simp only [chunksOfAux, List.length_cons, ih]
    simpa using ceilDiv_step k (xs.length + 1) hk (by omega)

theorem chunksOfAux_mem_length {α : Type} (k : Nat) :
    ∀ fuel (ids : List α) c, c ∈ chunksOfAux k fuel ids → c.length ≤ k
  | fuel, [], c => by cases fuel <;> simp [chunksOfAux]
  | 0, _ :: _, c => by simp [chunksOfAux]
  | fuel + 1, x :: xs, c => by
    intro hc
    simp only [chunksOfAux, List.mem_cons] at hc
    rcases hc with rfl | hc
    · simp
    · exact chunksOfAux_mem_length k fuel _ c hc

/-- With an upstream that answers every chunk with one record per
requested id, the batch loop returns exactly the requested records. -/
theorem batchFetchAux_exact {α : Type} (k : Nat) (hk : 0 < k) (f : String → α) :
    ∀ fuel ids, ids.length ≤ fuel →
      (batchFetchAux k (fun c _ => ⟨200, c.map f⟩) fuel ids).1 = ids.map f
  | fuel, [], _ => by cases fuel <;> simp [batchFetchAux]
  | 0, x :: xs, hfuel => by simp at hfuel
  | fuel + 1, x :: xs, hfuel => by
    have hdrop : ((x :: xs).drop k).length ≤ fuel := by
      rw [List.length_drop]
      simp only [List.length_cons] at hfuel ⊢
      omega
    have ih := batchFetchAux_exact k hk f fuel ((x :: xs).drop k) hdrop
    simp only [batchFetchAux, chunkFetch, ih]
    norm_num

/-! ## Lemmas about the dict and the filter loops -/

theorem mem_upsert {d : List (String × BaseInfo)} {k : String} {v : BaseInfo}
    {p : String × BaseInfo} (hp : p ∈ upsert d k v) : p ∈ d ∨ p = (k, v) := by
  unfold upsert at hp
  split at hp
  · obtain ⟨q, hq, hpq⟩ := List.mem_map.mp hp
    by_cases h : q.1 == k
    · right
      rw [if_pos h] at hpq
      exact hpq.symm
    · left
      rw [if_neg h] at hpq
      exact hpq ▸ hq
  · rcases List.mem_append.mp hp with h | h
    · exact Or.inl h
    · right
      simpa using h

/-- Every key that the inner artist loop adds to the dict was not in
`artists_already_found` and passed the most-recent-release check. -/
theorem processArtists_mem (already : List String) (check : String → Bool × Nat) :
    ∀ (arts : List ArtistRef) (acc : List (String × BaseInfo) × Nat)
      (p : String × BaseInfo), p ∈ (processArtists already check arts acc).1 →
      p ∈ acc.1 ∨ (already.contains p.1 = false ∧ (check p.1).1 = true)
  | [], acc, p => fun hp => Or.inl hp
  | art :: rest, acc, p => by
    intro hp
    simp only [processArtists] at hp
    rcases processArtists_mem already check rest _ p hp with h | h
    · split at h
      · next hguard =>
        simp only [Bool.and_eq_true, bne_iff_ne, ne_eq, Bool.not_eq_true'] at hguard
        split at h
        · next hcheck =>
          rcases mem_upsert h with h' | h'
          · exact Or.inl h'
          · right
            rw [h']
            exact ⟨hguard.2, hcheck⟩
        · exact Or.inl h
      · exact Or.inl h
    · exact Or.inr h

/-- Same property lifted through the outer album loop. -/
theorem collectArtists_mem (already : List String) (check : String → Bool × Nat) :
    ∀ (albums : List (Option Album)) (acc : List (String × BaseInfo) × Nat)
      (p : String × BaseInfo), p ∈ (collectArtists already check albums acc).1 →
      p ∈ acc.1 ∨ (already.contains p.1 = false ∧ (check p.1).1 = true)
  | [], acc, p => fun hp => Or.inl hp
  | none :: rest, acc, p => fun hp => collectArtists_mem already check rest acc p hp
  | some a :: rest, acc, p => by
    intro hp
    simp only [collectArtists] at hp
    rcases collectArtists_mem already check rest _ p hp with h | h
    · split at h
      · exact processArtists_mem already check a.artists acc p h
      · exact Or.inl h
    · exact Or.inr h

/-- Every returned artist satisfies the follower cap and its id is a key
of the dict built by the album filter. -/
theorem finalFilter_mem (dict : List (String × BaseInfo)) :
    ∀ (details : List (Option ArtistDetail)) (out : ArtistOut),
      out ∈ finalFilter dict details →
      out.followers < MAX_FOLLOWERS ∧ ∃ p ∈ dict, p.1 = out.id
  | [], out => by simp [finalFilter]
  | none :: rest, out => fun h => finalFilter_mem dict rest out h
  | some ad :: rest, out => by
    intro h
    cases hfind : dict.find? (fun p => p.1 == ad.id) with
    | none =>
      simp only [finalFilter, hfind] at h
      exact finalFilter_mem dict rest out h
    | some p =>
      simp only [finalFilter, hfind] at h
      by_cases hfol : ad.followersTotal < MAX_FOLLOWERS
      · rw [if_pos hfol] at h
        rcases List.mem_cons.mp h with rfl | h'
        · refine ⟨hfol, p, List.mem_of_find?_eq_some hfind, ?_⟩
          have := List.find?_some hfind
          simpa using this
        · exact finalFilter_mem dict rest out h'
      · rw [if_neg hfol] at h
        exact finalFilter_mem dict rest out h

/-! ## Claim C10 -/

/-- C10: a request to `/api/get_details` whose `album_ids` field is absent
or an empty list returns the 400 error "No album IDs provided" and issues
no upstream call (regardless of the upstream oracles), rather than an
empty result list. -/
theorem c10_empty_input_400 (tokenO : Option String)
    (albumDetailO : List String → Nat → Resp (Option Album))
    (artistAlbumsO : String → ArtistAlbumsResp)
    (artistDetailO : List String → Nat → Resp (Option ArtistDetail))
    (already : List String) :
    get_details tokenO albumDetailO artistAlbumsO artistDetailO ⟨none, already⟩
      = (.error ⟨400, "No album IDs provided"⟩, 0) ∧
    get_details tokenO albumDetailO artistAlbumsO artistDetailO ⟨some [], already⟩
      = (.error ⟨400, "No album IDs provided"⟩, 0) :=
  ⟨rfl, rfl⟩

/-! ## Claim C2 -/

/-- `pat` matched literally at the front of a character list. -/
def litPrefixAt : List Char → List Char → Bool
  | [], _ => true
  | _ :: _, [] => false
  | p :: ps, c :: cs => p = c && litPrefixAt ps cs

/-- `pat` matched literally at some position. -/
def litInfixAux (pat : List Char) : List Char → Bool
  | [] => litPrefixAt pat []
  | c :: cs => litPrefixAt pat (c :: cs) || litInfixAux pat cs

/-- `pat` occurs as a substring of `s` (used to state that an ownership
line carries a major-label marker). -/
def strContains (s pat : String) : Bool := litInfixAux pat.toList s.toList

/-- An ownership line carrying both the DK distributor marker and a
major-label marker. -/
def sonyText : String := "2024 Records DK Sony Music Entertainment"

/-- A work whose only ownership line is `sonyText`. -/
def sonyAlbum : Album :=
  ⟨"albS", [⟨"P", sonyText⟩], [⟨"artS", "Some Artist", "uS"⟩]⟩

/-- C2 counterexample: the code has no major-label blocklist.  A P-line
containing the major-label marker "Sony Music" still matches whenever the
distributor regex matches, so the work is accepted, not rejected — the
claimed absolute veto does not exist. -/
theorem c2_counterexample :
    strContains sonyText "Sony Music" = true ∧
    albumOwnershipMatch sonyAlbum = true :=
  ⟨by decide, by decide⟩

/-- C2 amended: the ownership match carries no major-label veto (and no
creator-name input at all): a work is accepted exactly when some copyright
line has type `P` and text matching `P_LINE_REGEX`, irrespective of any
major-label substring in the text. -/
theorem c2_amended_match_iff_pline (a : Album) :
    albumOwnershipMatch a = true ↔
      ∃ c ∈ a.copyrights, c.ctype = "P" ∧ P_LINE_REGEX_search c.text = true := by
  simp [albumOwnershipMatch, firstMatchingCopyright, List.find?_isSome,
    Bool.and_eq_true, beq_iff_eq]

/-! ## Claim C3 -/

/-- A work by "Jane Doe" whose P-lines are the creator's name with the
allowed suffix "records" appended (raw and normalized forms). -/
def janeAlbum : Album :=
  ⟨"albJ", [⟨"P", "Jane Doe Records"⟩, ⟨"P", "janedoe records"⟩],
   [⟨"artJ", "Jane Doe", "uJ"⟩]⟩

/-- Scan input holding only the Jane Doe work. -/
def janeInput : ScanInput := ⟨some ["albJ"], []⟩

/-- Album-detail oracle for the Jane Doe scenario. -/
def janeAlbumDetailO : List String → Nat → Resp (Option Album) :=
  fun chunk _ => ⟨200, chunk.map (fun i => if i = "albJ" then some janeAlbum else none)⟩

/-- C3 counterexample: the code has no name-match branch.  A work whose
ownership text is exactly the creator's name plus the allowed suffix
"records" is not matched, and a scan over it returns no candidate at all. -/
theorem c3_counterexample :
    albumOwnershipMatch janeAlbum = false ∧
    (get_details (some "tok") janeAlbumDetailO exArtistAlbumsO exArtistDetailO
      janeInput).1 = .ok [] :=
  ⟨by decide, rfl⟩

/-- C3 amended: a work whose single ownership line is the creator's name
with a suffix appended is never classified as a match unless that text
happens to match the distributor regex; the matcher has no name-match
branch, so any P-line text rejected by `P_LINE_REGEX` yields no candidate. -/
theorem c3_amended_no_name_match (aid t : String) (arts : List ArtistRef)
    (h : P_LINE_REGEX_search t = false) :
    albumOwnershipMatch ⟨aid, [⟨"P", t⟩], arts⟩ = false := by
  simp [albumOwnershipMatch, firstMatchingCopyright, List.find?, h]

/-- Witness for C3's amended theorem at the Jane Doe ownership text. -/
theorem c3_witness :
    P_LINE_REGEX_search "Jane Doe Records" = false ∧
    albumOwnershipMatch ⟨"albJ2", [⟨"P", "Jane Doe Records"⟩], []⟩ = false :=
  ⟨by decide, c3_amended_no_name_match "albJ2" "Jane Doe Records" [] (by decide)⟩

/-! ## Claim C6 -/

/-- Modelled from the spec: the result taxonomy of the Rate-Limited
Client (§4.2/§7), which `app.py` does not have. -/
inductive SpecFetchResult (α : Type) where
  | ok (body : List α)
  | rateLimited
  | upstreamError
deriving DecidableEq, Repr

/-- Modelled from the spec: "on HTTP 429, reads a retry-after hint
(default if absent), sleeps, and retries up to a fixed attempt ceiling
(3–4) before failing as RateLimited; on any non-2xx/429 status, fails as
UpstreamError without retry".  `remaining` is the attempt budget, `i` the
next attempt index. -/
def chunkFetchSpecAux {α : Type} (o : List String → Nat → Resp α)
    (chunk : List String) : Nat → Nat → SpecFetchResult α
  | 0, _ => .rateLimited
  | remaining + 1, i =>
    let r := o chunk i
    if r.status = 429 then chunkFetchSpecAux o chunk remaining (i + 1)
    else if 400 ≤ r.status then .upstreamError
    else .ok r.body

/-- Modelled from the spec: a chunk fetch with an attempt ceiling of
`maxAttempts`. -/
def chunkFetchSpec {α : Type} (maxAttempts : Nat) (o : List String → Nat → Resp α)
    (chunk : List String) : SpecFetchResult α :=
  chunkFetchSpecAux o chunk maxAttempts 0

/-- A record for the C6 scenario. -/
def c6album : Album := ⟨"albC", [], []⟩

/-- An upstream that answers 429 on attempts 0 and 1 and succeeds from
attempt 2 on. -/
def c6oracle : List String → Nat → Resp (Option Album) :=
  fun _ n => if n ≤ 1 then ⟨429, []⟩ else ⟨200, [some c6album]⟩

/-- Like `c6oracle` but failing with 503 from attempt 2 on (agrees with
`c6oracle` on attempts 0 and 1). -/
def c6oracle2 : List String → Nat → Resp (Option Album) :=
  fun _ n => if n ≤ 1 then ⟨429, []⟩ else ⟨503, []⟩

/-- C6 counterexample: the code retries a 429 exactly once, not up to a
ceiling of 3–4, and a persistent 429 makes the chunk fail (it is skipped),
not surface as RateLimited.  Against an upstream that would succeed on the
third attempt, the code's chunk fetch fails while a client with the
claimed ceiling of 3 (or 4) succeeds. -/
theorem c6_counterexample :
    chunkFetch c6oracle ["albC"] = none ∧
    chunkFetchSpec 3 c6oracle ["albC"] = .ok [some c6album] ∧
    chunkFetchSpec 4 c6oracle ["albC"] = .ok [some c6album] :=
  ⟨rfl, rfl, rfl⟩

/-- C6 amended: on a 429 first attempt the code re-issues the request
exactly once and the outcome is determined by the second response alone —
success yields its body, any error status (including another 429) makes
the chunk fail; attempts beyond the second are never consulted. -/
theorem c6_amended_single_retry {α : Type} (o o' : List String → Nat → Resp α)
    (chunk : List String) (h429 : (o chunk 0).status = 429)
    (h0 : o chunk 0 = o' chunk 0) (h1 : o chunk 1 = o' chunk 1) :
    chunkFetch o chunk
      = (if 400 ≤ (o chunk 1).status then none else some (o chunk 1).body) ∧
    chunkFetch o chunk = chunkFetch o' chunk := by
  constructor
  · simp [chunkFetch, h429]
  · simp [chunkFetch, h429, ← h0, ← h1]

/-- Witness for C6's amended theorem: `c6oracle` and `c6oracle2` agree on
the two consulted attempts, so the code's chunk fetch cannot tell them
apart even though they differ from attempt 2 on. -/
theorem c6_witness :
    (c6oracle ["albC"] 0).status = 429 ∧
    chunkFetch c6oracle ["albC"]
      = (if 400 ≤ (c6oracle ["albC"] 1).status then none
         else some (c6oracle ["albC"] 1).body) ∧
    chunkFetch c6oracle ["albC"] = chunkFetch c6oracle2 ["albC"] :=
  ⟨by decide,
   (c6_amended_single_retry c6oracle c6oracle2 ["albC"] (by decide) (by decide)
     (by decide)).1,
   (c6_amended_single_retry c6oracle c6oracle2 ["albC"] (by decide) (by decide)
     (by decide)).2⟩

/-! ## Claim C8 -/

/-- C8: each batch call processes every chunk: a chunk whose fetch fails
contributes nothing (it is skipped) while every successful chunk's records
appear, concatenated in order, and the loop still issues one call per
chunk regardless of failures — one bad chunk never aborts the batch. -/
theorem c8_failed_chunk_skipped (oA : List String → Nat → Resp (Option Album))
    (oR : List String → Nat → Resp (Option ArtistDetail)) (ids : List String) :
    (get_full_album_details oA ids).1
      = ((chunksOf 20 ids).map (fun c => (chunkFetch oA c).getD [])).flatten ∧
    (get_full_album_details oA ids).2 = (chunksOf 20 ids).length ∧
    (get_artist_details oR ids).1
      = ((chunksOf 50 ids).map (fun c => (chunkFetch oR c).getD [])).flatten ∧
    (get_artist_details oR ids).2 = (chunksOf 50 ids).length :=
  ⟨batchFetchAux_fst 20 oA ids.length ids, batchFetchAux_snd 20 oA ids.length ids,
   batchFetchAux_fst 50 oR ids.length ids, batchFetchAux_snd 50 oR ids.length ids⟩

/-! ## Claim C5 -/

/-- A record for the C5 duplicate counterexample. -/
def dupAlbum : Album := ⟨"dup", [], []⟩

/-- An upstream answering one record per requested id. -/
def c5oracle : List String → Nat → Resp (Option Album) :=
  fun chunk _ => ⟨200, chunk.map (fun i => if i = "dup" then some dupAlbum else none)⟩

/-- C5 counterexample: detail batching never deduplicates.  With the
two-element id list `["dup", "dup"]` the single batch call returns the
record twice, so the concatenated results do contain duplicate IDs. -/
theorem c5_counterexample :
    (get_full_album_details c5oracle ["dup", "dup"]).2 = 1 ∧
    (get_full_album_details c5oracle ["dup", "dup"]).1
      = [some dupAlbum, some dupAlbum] ∧
    ¬ ((get_full_album_details c5oracle ["dup", "dup"]).1.map
        (fun a => Option.map Album.id a)).Nodup :=
  ⟨rfl, rfl, by decide⟩

/-- The one-record-per-id album upstream used for C5's amended claim. -/
def mkAlbumRecord (i : String) : Option Album := some ⟨i, [], []⟩

/-- The one-record-per-id artist upstream used for C5's amended claim. -/
def mkArtistRecord (i : String) : Option ArtistDetail := some ⟨i, 0, 0, 0⟩

/-- Album oracle returning exactly the requested records. -/
def exactAlbumO : List String → Nat → Resp (Option Album) :=
  fun chunk _ => ⟨200, chunk.map mkAlbumRecord⟩

/-- Artist oracle returning exactly the requested records. -/
def exactArtistO : List String → Nat → Resp (Option ArtistDetail) :=
  fun chunk _ => ⟨200, chunk.map mkArtistRecord⟩

/-- C5 amended: batching with N ids issues exactly `ceil(N/K)` batch calls
(K = 20 for works, 50 for creators) with every chunk of size at most K,
for any upstream; and when the input ids are distinct and the upstream
returns exactly the requested records, the concatenation contains no
duplicate IDs (the code itself never deduplicates — see the
counterexample for duplicate inputs). -/
theorem c5_amended_batching (oA : List String → Nat → Resp (Option Album))
    (oR : List String → Nat → Resp (Option ArtistDetail)) (ids : List String)
    (hnd : ids.Nodup) :
    (get_full_album_details oA ids).2 = (ids.length + 19) / 20 ∧
    (get_artist_details oR ids).2 = (ids.length + 49) / 50 ∧
    (∀ c ∈ chunksOf 20 ids, c.length ≤ 20) ∧
    (∀ c ∈ chunksOf 50 ids, c.length ≤ 50) ∧
    (get_full_album_details exactAlbumO ids).1 = ids.map mkAlbumRecord ∧
    ((get_full_album_details exactAlbumO ids).1.map
      (fun a => Option.map Album.id a)).Nodup ∧
    (get_artist_details exactArtistO ids).1 = ids.map mkArtistRecord ∧
    ((get_artist_details exactArtistO ids).1.map
      (fun a => Option.map ArtistDetail.id a)).Nodup := by
  have e20 := batchFetchAux_exact 20 (by decide) mkAlbumRecord ids.length ids le_rfl
  have e50 := batchFetchAux_exact 50 (by decide) mkArtistRecord ids.length ids le_rfl
  have hmapA : ((ids.map mkAlbumRecord).map (fun a => Option.map Album.id a))
      = ids.map some := by
    rw [List.map_map]
    rfl
  have hmapR : ((ids.map mkArtistRecord).map (fun a => Option.map ArtistDetail.id a))
      = ids.map some := by
    rw [List.map_map]
    rfl
  refine ⟨?_, ?_, ?_, ?_, e20, ?_, e50, ?_⟩
  · unfold get_full_album_details
    rw [batchFetchAux_snd 20 oA ids.length ids,
      chunksOfAux_length 20 (by decide) ids.length ids le_rfl]
    omega
  · unfold get_artist_details
    rw [batchFetchAux_snd 50 oR ids.length ids,
      chunksOfAux_length 50 (by decide) ids.length ids le_rfl]
    omega
  · exact fun c hc => chunksOfAux_mem_length 20 ids.length ids c hc
  · exact fun c hc => chunksOfAux_mem_length 50 ids.length ids c hc
  · rw [show (get_full_album_details exactAlbumO ids).1 = ids.map mkAlbumRecord from e20,
      hmapA]
    exact hnd.map (fun a b h => Option.some.inj h)
  · rw [show (get_artist_details exactArtistO ids).1 = ids.map mkArtistRecord from e50,
      hmapR]
    exact hnd.map (fun a b h => Option.some.inj h)

/-- Witness for C5's amended theorem at the distinct id list
`["a", "b"]`. -/
theorem c5_witness :
    (["a", "b"] : List String).Nodup ∧
    (get_full_album_details exactAlbumO ["a", "b"]).2
      = ((["a", "b"] : List String).length + 19) / 20 :=
  ⟨by decide, (c5_amended_batching exactAlbumO exactArtistO ["a", "b"] (by decide)).1⟩

/-! ## Claim C9 -/

/-- C9: any failure inside `check_artist_most_recent_release` — a failed
albums-page fetch (any error status), an empty `items` list, or a
failed/empty/null detail fetch for the most recent album — yields the
total result `false` (a non-match): the `try/except` converts every
failure into a non-promotion, and the function is total, so no exception
escapes to the caller. -/
theorem c9_verification_failure_nonmatch (albumsO : String → ArtistAlbumsResp)
    (detailO : List String → Nat → Resp (Option Album)) (aid : String)
    (h : 400 ≤ (albumsO aid).status ∨ (albumsO aid).items = [] ∨
      ∀ x ∈ (albumsO aid).items.head?,
        ((get_full_album_details detailO [x]).1.head?.getD none) = none) :
    (check_artist_most_recent_release albumsO detailO aid).1 = false := by
  unfold check_artist_most_recent_release
  by_cases hs : 400 ≤ (albumsO aid).status
  · rw [if_pos hs]
  · rw [if_neg hs]
    cases hitems : (albumsO aid).items with
    | nil => rfl
    | cons x rest =>
      rcases h with h | h | h
      · exact absurd h hs
      · rw [hitems] at h
        exact absurd h (by simp)
      · have hx := h x (by rw [hitems]; rfl)
        cases hfull : (get_full_album_details detailO [x]).1 with
        | nil => simp [hfull]
        | cons a? tl =>
          cases a? with
          | none => simp [hfull]
          | some a =>
            rw [hfull] at hx
            simp at hx

/-- An albums-page upstream that always fails with a server error. -/
def failAlbumsO : String → ArtistAlbumsResp := fun _ => ⟨500, []⟩

/-- Witness for C9 at a failing albums-page fetch. -/
theorem c9_witness :
    400 ≤ (failAlbumsO "artF").status ∧
    (check_artist_most_recent_release failAlbumsO exAlbumDetailO "artF").1 = false :=
  ⟨by decide,
   c9_verification_failure_nonmatch failAlbumsO exAlbumDetailO "artF"
     (Or.inl (by decide))⟩

/-! ## Claims C1, C4 and C7: properties of every returned artist -/

/-- Every artist entry a successful `/api/get_details` run returns passed
the follower cap, was not in `artists_already_found`, and passed the
most-recent-release check. -/
theorem get_details_out_spec (tokenO : Option String)
    (albumDetailO : List String → Nat → Resp (Option Album))
    (artistAlbumsO : String → ArtistAlbumsResp)
    (artistDetailO : List String → Nat → Resp (Option ArtistDetail))
    (inp : ScanInput) (l : List ArtistOut)
    (hres : (get_details tokenO albumDetailO artistAlbumsO artistDetailO inp).1
      = .ok l) :
    ∀ out ∈ l,
      out.followers < MAX_FOLLOWERS ∧
      inp.artists_already_found.contains out.id = false ∧
      (check_artist_most_recent_release artistAlbumsO albumDetailO out.id).1 = true := by
  intro out hout
  obtain ⟨aids?, already⟩ := inp
  cases aids? with
  | none => simp [get_details] at hres
  | some aids =>
    cases he : aids.isEmpty with
    | true => simp [get_details, he] at hres
    | false =>
      cases tokenO with
      | none => simp [get_details, he] at hres
      | some tok =>
        simp only [get_details, he, Bool.false_eq_true, if_false] at hres
        split at hres
        · simp only [Except.ok.injEq] at hres
          subst hres
          exact absurd hout (by simp)
        · simp only [Except.ok.injEq] at hres
          subst hres
          rcases finalFilter_mem _ _ out hout with ⟨hfol, p, hp, hpid⟩
          rcases collectArtists_mem already _ _ _ p hp with hin | ⟨hcon, hchk⟩
          · simp at hin
          · exact ⟨hfol, hpid ▸ hcon, hpid ▸ hchk⟩

/-- C1: for every caller-supplied `artists_already_found` set and any
upstream data, no creator id in that set appears in the scan's output: an
entry's id is never an already-found id. -/
theorem c1_already_found_never_output (tokenO : Option String)
    (albumDetailO : List String → Nat → Resp (Option Album))
    (artistAlbumsO : String → ArtistAlbumsResp)
    (artistDetailO : List String → Nat → Resp (Option ArtistDetail))
    (inp : ScanInput) (X : String) (l : List ArtistOut)
    (hX : X ∈ inp.artists_already_found)
    (hres : (get_details tokenO albumDetailO artistAlbumsO artistDetailO inp).1
      = .ok l) :
    ∀ out ∈ l, out.id ≠ X := by
  intro out hout heq
  obtain ⟨-, hcon, -⟩ := get_details_out_spec tokenO albumDetailO artistAlbumsO
    artistDetailO inp l hres out hout
  rw [heq] at hcon
  simp at hcon
  exact hcon hX

/-- Witness for C1: in the concrete scenario the already-found id `artZ`
is absent from the output entry. -/
theorem c1_witness :
    "artZ" ∈ exInput.artists_already_found ∧ exOut1.id ≠ "artZ" :=
  ⟨by decide,
   c1_already_found_never_output (some "tok") exAlbumDetailO exArtistAlbumsO
     exArtistDetailO exInput "artZ" [exOut1] (by decide) rfl exOut1 (by decide)⟩

/-- C4: a creator whose fetched most recent release fails the P-line check
is excluded from the scan's output, even if an older release of theirs
matched: no output entry carries the id of a creator whose
`check_artist_most_recent_release` is `false`. -/
theorem c4_latest_release_gate (tokenO : Option String)
    (albumDetailO : List String → Nat → Resp (Option Album))
    (artistAlbumsO : String → ArtistAlbumsResp)
    (artistDetailO : List String → Nat → Resp (Option ArtistDetail))
    (inp : ScanInput) (X : String) (l : List ArtistOut)
    (hchk : (check_artist_most_recent_release artistAlbumsO albumDetailO X).1 = false)
    (hres : (get_details tokenO albumDetailO artistAlbumsO artistDetailO inp).1
      = .ok l) :
    ∀ out ∈ l, out.id ≠ X := by
  intro out hout heq
  obtain ⟨-, -, hc⟩ := get_details_out_spec tokenO albumDetailO artistAlbumsO
    artistDetailO inp l hres out hout
  rw [heq, hchk] at hc
  exact absurd hc (by simp)

/-- Witness for C4: in the concrete scenario `art2`'s older work `alb2`
carries the DK P-line but `art2`'s most recent release `rec2` does not
(`"2025 Universal"`), so `art2` is excluded and the single output entry is
not `art2`. -/
theorem c4_witness :
    (check_artist_most_recent_release exArtistAlbumsO exAlbumDetailO "art2").1
      = false ∧
    albumOwnershipMatch exAlbum2 = true ∧
    exOut1.id ≠ "art2" :=
  ⟨by decide, by decide,
   c4_latest_release_gate (some "tok") exAlbumDetailO exArtistAlbumsO
     exArtistDetailO exInput "art2" [exOut1] (by decide) rfl exOut1 (by decide)⟩

/-! ## Claim C7 -/

/-- C7 counterexample: the candidate filter has no image gate (nor keyword
or popularity gate): the scenario's output entry belongs to a creator
whose enriched record has zero profile images (and popularity 0), yet it
is returned — failing the claimed image gate does not exclude a creator. -/
theorem c7_counterexample :
    (get_details (some "tok") exAlbumDetailO exArtistAlbumsO exArtistDetailO
      exInput).1 = .ok [exOut1] ∧
    exDetail1.images = 0 ∧
    exDetail1.popularity = 0 ∧
    exOut1.id = exDetail1.id :=
  ⟨rfl, rfl, rfl, rfl⟩

/-- C7 amended: the only quality gate `get_details` applies to an enriched
creator is the follower ceiling: every returned entry has strictly fewer
than `MAX_FOLLOWERS` followers; no keyword, profile-image or popularity
gate exists (see the counterexample). -/
theorem c7_amended_follower_gate_only (tokenO : Option String)
    (albumDetailO : List String → Nat → Resp (Option Album))
    (artistAlbumsO : String → ArtistAlbumsResp)
    (artistDetailO : List String → Nat → Resp (Option ArtistDetail))
    (inp : ScanInput) (l : List ArtistOut)
    (hres : (get_details tokenO albumDetailO artistAlbumsO artistDetailO inp).1
      = .ok l) :
    ∀ out ∈ l, out.followers < MAX_FOLLOWERS :=
  fun out hout =>
    (get_details_out_spec tokenO albumDetailO artistAlbumsO artistDetailO inp l
      hres out hout).1

/-- Witness for C7's amended theorem at the concrete scenario. -/
theorem c7_witness : exOut1.followers < MAX_FOLLOWERS :=
  c7_amended_follower_gate_only (some "tok") exAlbumDetailO exArtistAlbumsO
    exArtistDetailO exInput [exOut1] rfl exOut1 (by decide)

end DKScanner
